import Mathlib

/-!
The class raticate::UnknownMatrix.

A shallow embedding of `include/raticate/UnknownMatrix.hpp`: the geometry probe of the
constructor, the index helpers `create_index_vector` and `round_indices`, the stateless
`quick_dense_extractor`, the caching `buffered_dense_extractor` and the public `row` /
`column` entry points.

Conventions.
* `size_t` values are natural numbers below `SIZE_MOD = 2 ^ 64`; every `size_t` operation of
  the source is followed by an explicit reduction modulo `SIZE_MOD`.
* A call that throws, or that runs into undefined behaviour, yields a `Failure`.
* The workspace is mutated in place by the source; here every call returns the workspace as it
  is left behind, together with the list of backend calls issued and the values written to the
  caller's buffer.
-/

namespace raticate

/-! ## Machine arithmetic -/

/-- Number of values of the 64-bit `size_t`. -/
def SIZE_MOD : Nat := 2 ^ 64

/-- The `size_t` sum `a + b`. -/
def size_add (a b : Nat) : Nat := (a + b) % SIZE_MOD

/-- The `size_t` difference `a - b` (wraps around below zero). -/
def size_sub (a b : Nat) : Nat := (a % SIZE_MOD + SIZE_MOD - b % SIZE_MOD) % SIZE_MOD

/-- The `size_t` product `a * b`. -/
def size_mul (a b : Nat) : Nat := (a * b) % SIZE_MOD

/-! ## Failures -/

/-- The ways in which a call into the matrix can fail. -/
inductive Failure where
  -- the std::runtime_error thrown by the direction guard of buffered_dense_extractor
  | direction_mismatch
  -- a size_t division by zero (undefined behaviour)
  | division_by_zero
  -- the backend rejects a selector that names a position outside the array
  | subscript_out_of_bounds
  -- a read of the snapshot outside its storage (undefined behaviour)
  | invalid_read
  -- the Rcpp::IntegerVector constructor is given a wrapped size_t length and throws
  | negative_length
  deriving DecidableEq, Repr

deriving instance DecidableEq for Except

/-! ## Index helpers (lines 152-172) -/

/-- The `Rcpp::RObject` built by `create_index_vector`: `R_NilValue` (select the whole axis)
or an integer vector of 1-based positions. The positions are kept as natural numbers; their
conversion to the 32-bit `int` of R is exact for every position up to `INT_MAX`, which covers
the positions of a matrix whose dimensions come from the constructor. -/
inductive RObject where
  | R_NilValue
  | IntegerVector (alt : List Nat)
  deriving DecidableEq, Repr

/-- `create_index_vector(first, last, max)`: unless the range is the whole axis, an integer
vector of `last - first` entries (a `size_t` difference) filled by `std::iota` from
`first + 1`. When `last < first` the difference wraps around to `2 ^ 64 - (first - last)`,
a length that `Rcpp::IntegerVector alt(last - first)` cannot allocate (for every `first` up
to `2 ^ 63` it is negative as a signed vector length), and the constructor throws. -/
def create_index_vector (first last max : Nat) : Except Failure RObject :=
  if first ≠ 0 ∨ last ≠ max then
    if last < first then
      Except.error Failure.negative_length
    else
      Except.ok (RObject.IntegerVector (List.range' (first + 1) (size_sub last first)))
  else
    Except.ok RObject.R_NilValue

/-- `round_indices(first, last, interval, max)`. Both components divide by `interval`, and
`first / interval` is evaluated unconditionally, so a zero interval is a division by zero.
The conditional of the source is `last ? 0 : ((last - 1) / interval + 1) * interval`. -/
def round_indices (first last interval max : Nat) : Except Failure (Nat × Nat) :=
  if interval = 0 then
    Except.error Failure.division_by_zero
  else
    let new_first := size_mul (first / interval) interval
    let new_last := min max
      (if last ≠ 0 then
        0
      else
        size_mul (size_add (size_sub last 1 / interval) 1) interval)
    Except.ok (new_first, new_last)

/-! ## The backend -/

/-- The array behind `original_seed`: its dimensions and its entries (0-based). -/
structure Seed (Elt : Type) where
  nrow : Nat
  ncol : Nat
  entry : Nat → Nat → Elt

/-- A block returned by the backend: its dimensions and its values in column-major order. -/
structure Block (Elt : Type) where
  rows : Nat
  cols : Nat
  values : List Elt

/-- Modelled from the spec: the 0-based positions named by a selector of the external backend
along an axis of the given extent. The selector is either "all" (`R_NilValue`) or an ordered
list of 1-based positions; a position outside `1 .. extent` is rejected. -/
def selected (index : RObject) (extent : Nat) : Except Failure (List Nat) :=
  match index with
  | RObject.R_NilValue => Except.ok (List.range extent)
  | RObject.IntegerVector alt =>
    if alt.all (fun k => decide (1 ≤ k ∧ k ≤ extent)) then
      Except.ok (alt.map (fun k => k - 1))
    else
      Except.error Failure.subscript_out_of_bounds

/-- Modelled from the spec: the external bulk extraction `extract_array(seed, indices)` bound
to `dense_extractor`. It returns exactly the sub-block of the array named by the row selector
`indices.1` and the column selector `indices.2`, its shape matching the selector
cardinalities. -/
def dense_extractor {Elt : Type} (seed : Seed Elt) (indices : RObject × RObject) :
    Except Failure (Block Elt) :=
  match selected indices.1 seed.nrow with
  | Except.error e => Except.error e
  | Except.ok rs =>
    match selected indices.2 seed.ncol with
    | Except.error e => Except.error e
    | Except.ok cs =>
      Except.ok
        { rows := rs.length
          cols := cs.length
          values := (cs.map (fun c => rs.map (fun r => seed.entry r c))).flatten }

/-- The element conversions that the source delegates to Rcpp and to the C++ compiler:
the typed views `LogicalVector` / `IntegerVector` (both with `int` storage) and
`NumericVector` (`double` storage) of a backend block, and the conversions of `int` and
`double` to the matrix's `Data` type. -/
structure Coercion (Elt Dbl Data : Type) where
  as_logical : Elt → Int
  as_integer : Elt → Int
  as_numeric : Elt → Dbl
  int_to_data : Int → Data
  dbl_to_data : Dbl → Data

/-! ## The matrix and its constructor (lines 16-97, 260-272) -/

/-- The private members of `UnknownMatrix`. -/
structure UnknownMatrix (Elt Dbl Data : Type) where
  nrow_ : Nat
  ncol_ : Nat
  sparse_ : Bool
  type_ : Int
  needs_chunks : Bool
  chunk_nrow : Nat
  chunk_ncol : Nat
  block_nrow : Nat
  block_ncol : Nat
  original_seed : Seed Elt
  conv : Coercion Elt Dbl Data

/-- What the R functions called by the constructor return for the seed. -/
structure Probe where
  -- result of dim(seed): none if it is not an integer vector
  dim : Option (List Int)
  -- result of type(seed), a character vector
  type_str : List String
  -- result of is_sparse(seed), a logical vector
  is_sparse : List Int
  -- result of chunkdim(seed): none for NULL
  chunkdim : Option (List Int)
  -- the spacings slot of colAutoGrid(seed)
  colAutoGrid : List Int
  -- the spacings slot of rowAutoGrid(seed)
  rowAutoGrid : List Int

/-- The `std::runtime_error`s thrown by the constructor, in source order. -/
inductive ConstructionError where
  | dims_not_integer
  | dims_malformed
  | type_malformed
  | sparse_malformed
  | chunks_malformed
  | colAutoGrid_malformed
  | rowAutoGrid_malformed
  deriving DecidableEq, Repr

/-- The constructor `UnknownMatrix(seed)`, given the answers of the R functions it calls. -/
def UnknownMatrix.create {Elt Dbl Data : Type} (seed : Seed Elt)
    (conv : Coercion Elt Dbl Data) (p : Probe) :
    Except ConstructionError (UnknownMatrix Elt Dbl Data) :=
  match p.dim with
  | none => Except.error ConstructionError.dims_not_integer
  | some dims =>
    if dims.length ≠ 2 ∨ dims.getD 0 0 < 0 ∨ dims.getD 1 0 < 0 then
      Except.error ConstructionError.dims_malformed
    else if p.type_str.length ≠ 1 then
      Except.error ConstructionError.type_malformed
    else if p.is_sparse.length ≠ 1 then
      Except.error ConstructionError.sparse_malformed
    else if (match p.chunkdim with
        | none => false
        | some chunks =>
          decide (chunks.length ≠ 2 ∨ chunks.getD 0 0 < 0 ∨ chunks.getD 1 0 < 0)) then
      Except.error ConstructionError.chunks_malformed
    else if p.colAutoGrid.length ≠ 2 ∨ p.colAutoGrid.getD 1 0 < 0 then
      Except.error ConstructionError.colAutoGrid_malformed
    else if p.rowAutoGrid.length ≠ 2 ∨ p.rowAutoGrid.getD 0 0 < 0 then
      Except.error ConstructionError.rowAutoGrid_malformed
    else
      Except.ok
        { nrow_ := (dims.getD 0 0).toNat
          ncol_ := (dims.getD 1 0).toNat
          sparse_ := decide (p.is_sparse.getD 0 0 ≠ 0)
          type_ :=
            if p.type_str.getD 0 "" = "logical" then 0
            else if p.type_str.getD 0 "" = "integer" then 1
            else 2
          needs_chunks := p.chunkdim.isSome
          chunk_nrow := (((p.chunkdim.getD []).getD 0 0)).toNat
          chunk_ncol := (((p.chunkdim.getD []).getD 1 0)).toNat
          block_nrow := (p.rowAutoGrid.getD 0 0).toNat
          block_ncol := (p.colAutoGrid.getD 1 0).toNat
          original_seed := seed
          conv := conv }

namespace UnknownMatrix

variable {Elt Dbl Data : Type}

/-- The accessor `nrow()`. -/
def nrow (m : UnknownMatrix Elt Dbl Data) : Nat := m.nrow_

/-- The accessor `ncol()`. -/
def ncol (m : UnknownMatrix Elt Dbl Data) : Nat := m.ncol_

/-- The accessor `sparse()`. -/
def sparse (m : UnknownMatrix Elt Dbl Data) : Bool := m.sparse_

/-- The accessor `prefer_rows()`. -/
def prefer_rows (_m : UnknownMatrix Elt Dbl Data) : Bool := false

end UnknownMatrix

/-! ## The workspace (lines 118-128) -/

/-- The storage of a snapshot: `std::vector<int>` for logical and integer data,
`std::vector<double>` otherwise. -/
inductive Holding (Dbl : Type) where
  | ints (values : List Int)
  | doubles (values : List Dbl)

/-- Modelled from the spec: the dense column-major matrix of the external tatami library that
holds a snapshot: entry `(r, c)` is stored at position `r + c * nrows`. -/
structure DenseColumnMatrix (Dbl : Type) where
  nrows : Nat
  ncols : Nat
  values : Holding Dbl

/-- The value stored at position `k` of a snapshot's storage, converted to `Data`;
`none` outside the storage. -/
def Holding.read {Elt Dbl Data : Type} (conv : Coercion Elt Dbl Data) (h : Holding Dbl)
    (k : Nat) : Option Data :=
  match h with
  | Holding.ints values => (values.get? k).map conv.int_to_data
  | Holding.doubles values => (values.get? k).map conv.dbl_to_data

/-- The values stored at the listed positions, in order; `none` as soon as one position lies
outside the storage. -/
def Holding.read_all {Elt Dbl Data : Type} (conv : Coercion Elt Dbl Data) (h : Holding Dbl) :
    List Nat → Option (List Data)
  | [] => some []
  | k :: ks =>
    match h.read conv k with
    | none => none
    | some x => (Holding.read_all conv h ks).map (fun xs => x :: xs)

/-- Modelled from the spec: `row_copy(r, buffer, first, last)` of the external tatami matrix,
a strided read of the entries `first ≤ c < last` of row `r` out of the column-major storage
(nothing is read when `last ≤ first`). The values written to `buffer` are returned. -/
def DenseColumnMatrix.row_copy {Elt Dbl Data : Type} (conv : Coercion Elt Dbl Data)
    (mat : DenseColumnMatrix Dbl) (r first last : Nat) : Except Failure (List Data) :=
  match mat.values.read_all conv
      ((List.range' first (last - first)).map (fun c => r + c * mat.nrows)) with
  | some out => Except.ok out
  | none => Except.error Failure.invalid_read

/-- Modelled from the spec: `column_copy(c, buffer, first, last)` of the external tatami
matrix, a contiguous read of the entries `first ≤ r < last` of column `c`; a reversed range is
an invalid copy. The values written to `buffer` are returned. -/
def DenseColumnMatrix.column_copy {Elt Dbl Data : Type} (conv : Coercion Elt Dbl Data)
    (mat : DenseColumnMatrix Dbl) (c first last : Nat) : Except Failure (List Data) :=
  if last < first then
    Except.error Failure.invalid_read
  else
    match mat.values.read_all conv
        ((List.range' first (last - first)).map (fun r => c * mat.nrows + r)) with
    | some out => Except.ok out
    | none => Except.error Failure.invalid_read

/-- The struct `UnknownWorkspace`. -/
structure UnknownWorkspace (Dbl : Type) where
  byrow : Bool
  primary_block_start : Nat
  primary_block_end : Nat
  secondary_chunk_start : Nat
  secondary_chunk_end : Nat
  buffer : Option (DenseColumnMatrix Dbl)

/-- `new_workspace(row)`. The four range members are left uninitialised by the source (they
are written by the first refresh before they are read); they are zero here. -/
def new_workspace (Dbl : Type) (row : Bool) : UnknownWorkspace Dbl :=
  { byrow := row
    primary_block_start := 0
    primary_block_end := 0
    secondary_chunk_start := 0
    secondary_chunk_end := 0
    buffer := none }

/-! ## Extraction (lines 131-149, 175-257) -/

/-- What a call leaves behind: the workspace after the call, the backend calls it issued (the
`indices` list of each, row selector first), and either the failure that ended it or the
values it wrote to the caller's buffer, from position 0 on. -/
structure Outcome (W Data : Type) where
  work : W
  calls : List (RObject × RObject)
  result : Except Failure (List Data)

namespace UnknownMatrix

variable {Elt Dbl Data : Type}

/-- The values copied to `buffer` by lines 182-192: the block viewed according to `type_`. -/
def copy_values (m : UnknownMatrix Elt Dbl Data) (val0 : Block Elt) : List Data :=
  if m.type_ = 0 then
    val0.values.map (fun v => m.conv.int_to_data (m.conv.as_logical v))
  else if m.type_ = 1 then
    val0.values.map (fun v => m.conv.int_to_data (m.conv.as_integer v))
  else
    val0.values.map (fun v => m.conv.dbl_to_data (m.conv.as_numeric v))

/-- `quick_dense_extractor<byrow>(i, buffer, first, last)`. (The size printed to `std::cout`
in the floating-point branch is not part of the model.) -/
def quick_dense_extractor (m : UnknownMatrix Elt Dbl Data) (byrow : Bool)
    (i first last : Nat) : Outcome Unit Data :=
  let primary := RObject.IntegerVector [size_add i 1]
  match create_index_vector first last (if byrow then m.ncol_ else m.nrow_) with
  | Except.error e => { work := (), calls := [], result := Except.error e }
  | Except.ok secondary =>
    let indices := if byrow then (primary, secondary) else (secondary, primary)
    match dense_extractor m.original_seed indices with
    | Except.error e => { work := (), calls := [indices], result := Except.error e }
    | Except.ok val0 =>
      { work := (), calls := [indices], result := Except.ok (m.copy_values val0) }

/-- The flag `reset` computed by lines 202-209. -/
def needs_reset (work : UnknownWorkspace Dbl) (i first last : Nat) : Bool :=
  match work.buffer with
  | none => true
  | some _ =>
    if i ≥ work.primary_block_start ∧ i < work.primary_block_end then
      if first ≥ work.secondary_chunk_start ∧ last ≤ work.secondary_chunk_end then
        false
      else
        true
    else
      true

/-- The snapshot built by lines 237-249 from the block returned by the backend. -/
def snapshot (m : UnknownMatrix Elt Dbl Data) (val0 : Block Elt) : DenseColumnMatrix Dbl :=
  if m.type_ = 0 then
    { nrows := val0.rows, ncols := val0.cols
      values := Holding.ints (val0.values.map m.conv.as_logical) }
  else if m.type_ = 1 then
    { nrows := val0.rows, ncols := val0.cols
      values := Holding.ints (val0.values.map m.conv.as_integer) }
  else
    { nrows := val0.rows, ncols := val0.cols
      values := Holding.doubles (val0.values.map m.conv.as_numeric) }

/-- Lines 236-249: the backend call for `indices` and the replacement of the snapshot. -/
def fetch (m : UnknownMatrix Elt Dbl Data) (work : UnknownWorkspace Dbl)
    (indices : RObject × RObject) :
    UnknownWorkspace Dbl × List (RObject × RObject) × Option Failure :=
  match dense_extractor m.original_seed indices with
  | Except.error e => (work, [indices], some e)
  | Except.ok val0 => ({ work with buffer := some (m.snapshot val0) }, [indices], none)

/-- The body of `if (reset)`, lines 211-250: the workspace as it is left, the backend calls
issued, and the failure that interrupted the refresh, if any. Each range is written to the
workspace only after its selector has been built, so a throw of `create_index_vector` leaves
that range as it was. -/
def refresh (m : UnknownMatrix Elt Dbl Data) (byrow : Bool) (i first last : Nat)
    (work : UnknownWorkspace Dbl) :
    UnknownWorkspace Dbl × List (RObject × RObject) × Option Failure :=
  if byrow then
    match round_indices i (size_add i 1) m.block_nrow m.nrow_ with
    | Except.error e => (work, [], some e)
    | Except.ok row_rounded =>
      match create_index_vector row_rounded.1 row_rounded.2 m.nrow_ with
      | Except.error e => (work, [], some e)
      | Except.ok index0 =>
        let work1 := { work with
          primary_block_start := row_rounded.1
          primary_block_end := row_rounded.2 }
        match (if m.needs_chunks then round_indices first last m.chunk_ncol m.ncol_
            else Except.ok (first, last)) with
        | Except.error e => (work1, [], some e)
        | Except.ok col_rounded =>
          match create_index_vector col_rounded.1 col_rounded.2 m.ncol_ with
          | Except.error e => (work1, [], some e)
          | Except.ok index1 =>
            let work2 := { work1 with
              secondary_chunk_start := col_rounded.1
              secondary_chunk_end := col_rounded.2 }
            m.fetch work2 (index0, index1)
  else
    match (if m.needs_chunks then round_indices first last m.chunk_nrow m.nrow_
        else Except.ok (first, last)) with
    | Except.error e => (work, [], some e)
    | Except.ok row_rounded =>
      match create_index_vector row_rounded.1 row_rounded.2 m.nrow_ with
      | Except.error e => (work, [], some e)
      | Except.ok index0 =>
        let work1 := { work with
          secondary_chunk_start := row_rounded.1
          secondary_chunk_end := row_rounded.2 }
        match round_indices i (size_add i 1) m.block_ncol m.ncol_ with
        | Except.error e => (work1, [], some e)
        | Except.ok col_rounded =>
          match create_index_vector col_rounded.1 col_rounded.2 m.ncol_ with
          | Except.error e => (work1, [], some e)
          | Except.ok index1 =>
            let work2 := { work1 with
              primary_block_start := col_rounded.1
              primary_block_end := col_rounded.2 }
            m.fetch work2 (index0, index1)

/-- Lines 252-256: the copy out of the snapshot. The three offsets are `size_t` differences;
the last one subtracts `secondary_chunk_end`. -/
def copy_out (m : UnknownMatrix Elt Dbl Data) (byrow : Bool) (i first last : Nat)
    (work : UnknownWorkspace Dbl) : Except Failure (List Data) :=
  match work.buffer with
  | none => Except.error Failure.invalid_read
  | some mat =>
    if byrow then
      mat.row_copy m.conv (size_sub i work.primary_block_start)
        (size_sub first work.secondary_chunk_start) (size_sub last work.secondary_chunk_end)
    else
      mat.column_copy m.conv (size_sub i work.primary_block_start)
        (size_sub first work.secondary_chunk_start) (size_sub last work.secondary_chunk_end)

/-- `buffered_dense_extractor<byrow>(i, buffer, first, last, work)`. -/
def buffered_dense_extractor (m : UnknownMatrix Elt Dbl Data) (byrow : Bool)
    (i first last : Nat) (work : UnknownWorkspace Dbl) :
    Outcome (UnknownWorkspace Dbl) Data :=
  if work.byrow ≠ byrow then
    { work := work, calls := [], result := Except.error Failure.direction_mismatch }
  else if needs_reset work i first last then
    match m.refresh byrow i first last work with
    | (work1, calls, some e) => { work := work1, calls := calls, result := Except.error e }
    | (work1, calls, none) =>
      { work := work1, calls := calls, result := m.copy_out byrow i first last work1 }
  else
    { work := work, calls := [], result := m.copy_out byrow i first last work }

/-- `row(r, buffer, first, last, work)`: the quick path without a workspace, the buffered
path with one. -/
def row (m : UnknownMatrix Elt Dbl Data) (r first last : Nat)
    (work : Option (UnknownWorkspace Dbl)) : Outcome (Option (UnknownWorkspace Dbl)) Data :=
  match work with
  | none =>
    let out := m.quick_dense_extractor true r first last
    { work := none, calls := out.calls, result := out.result }
  | some w =>
    let out := m.buffered_dense_extractor true r first last w
    { work := some out.work, calls := out.calls, result := out.result }

end UnknownMatrix

/-! ## A concrete matrix -/

/-- The missing value of R integers and logicals, `INT_MIN`. -/
def NA_INTEGER : Int := -(2 ^ 31)

/-- The conversions of Rcpp on a block of integer storage, with `Data` an integer type:
`LogicalVector` turns every value other than 0 and the missing value into 1,
`IntegerVector` keeps the values, and the remaining conversions are value-preserving. -/
def int_coercion : Coercion Int Int Int :=
  { as_logical := fun v => if v = 0 then 0 else if v = NA_INTEGER then NA_INTEGER else 1
    as_integer := fun v => v
    as_numeric := fun v => v
    int_to_data := fun v => v
    dbl_to_data := fun v => v }

/-- The 10 x 5 array whose entry `(r, c)` is `10 * r + c`. -/
def example_seed : Seed Int :=
  { nrow := 10, ncol := 5, entry := fun r c => 10 * (r : Int) + (c : Int) }

/-- The answers of the R functions for `example_seed`: integer type, dense, the given native
chunk dimensions (`none` for no chunking) and the given block spacings for row-major and
column-major traversal. -/
def example_probe (chunkdim : Option (List Int)) (block_nrow block_ncol : Int) : Probe :=
  { dim := some [10, 5]
    type_str := ["integer"]
    is_sparse := [0]
    chunkdim := chunkdim
    colAutoGrid := [10, block_ncol]
    rowAutoGrid := [block_nrow, 5] }

/-- The matrix over `example_seed` with integer type, no native chunking and the given block
spacings. -/
def example_matrix (block_nrow block_ncol : Nat) : UnknownMatrix Int Int Int :=
  { nrow_ := 10
    ncol_ := 5
    sparse_ := false
    type_ := 1
    needs_chunks := false
    chunk_nrow := 0
    chunk_ncol := 0
    block_nrow := block_nrow
    block_ncol := block_ncol
    original_seed := example_seed
    conv := int_coercion }

/-- A 10 x 5 array of logical values: entry `(r, c)` is 1 when `r + c` is odd and 0
otherwise. -/
def logical_seed : Seed Int :=
  { nrow := 10, ncol := 5, entry := fun r c => (((r + c) % 2 : Nat) : Int) }

/-- The matrix over `logical_seed` with the boolean type tag, no native chunking and the given
block spacings. -/
def logical_matrix (block_nrow block_ncol : Nat) : UnknownMatrix Int Int Int :=
  { nrow_ := 10
    ncol_ := 5
    sparse_ := false
    type_ := 0
    needs_chunks := false
    chunk_nrow := 0
    chunk_ncol := 0
    block_nrow := block_nrow
    block_ncol := block_ncol
    original_seed := logical_seed
    conv := int_coercion }

/-! ## The cache window -/

/-- The hit condition in the words of the specification: a snapshot exists, the index lies in
the cached primary range and the requested range lies within the cached secondary range. -/
def cache_hit {Dbl : Type} (work : UnknownWorkspace Dbl) (i first last : Nat) : Prop :=
  work.buffer.isSome = true ∧
    work.primary_block_start ≤ i ∧ i < work.primary_block_end ∧
    work.secondary_chunk_start ≤ first ∧ last ≤ work.secondary_chunk_end

/-- The three arguments that lines 253 and 255 pass to `row_copy` / `column_copy` after the
buffer: the primary offset, the secondary start offset and the secondary end offset, each a
`size_t` difference. -/
def copy_arguments {Dbl : Type} (work : UnknownWorkspace Dbl) (i first last : Nat) :
    Nat × Nat × Nat :=
  (size_sub i work.primary_block_start,
    size_sub first work.secondary_chunk_start,
    size_sub last work.secondary_chunk_end)

/-- A row workspace holding rows `[0, 4)` and columns `[0, 5)` of `example_seed`, as a
column-major 4 x 5 snapshot. -/
def example_workspace : UnknownWorkspace Int :=
  { byrow := true
    primary_block_start := 0
    primary_block_end := 4
    secondary_chunk_start := 0
    secondary_chunk_end := 5
    buffer := some
      { nrows := 4
        ncols := 5
        values := Holding.ints
          [0, 10, 20, 30, 1, 11, 21, 31, 2, 12, 22, 32, 3, 13, 23, 33, 4, 14, 24, 34] } }

/-! ## Range rounding -/

theorem size_mul_div_self {first interval : Nat} (hf : first < SIZE_MOD) :
    size_mul (first / interval) interval = first / interval * interval := by
  unfold size_mul
  exact Nat.mod_eq_of_lt (lt_of_le_of_lt (Nat.div_mul_le_self first interval) hf)

theorem round_indices_of_pos {first last interval max : Nat} (hi : 0 < interval) :
    round_indices first last interval max =
      Except.ok (size_mul (first / interval) interval,
        min max (if last ≠ 0 then 0
          else size_mul (size_add (size_sub last 1 / interval) 1) interval)) := by
  unfold round_indices
  rw [if_neg (Nat.pos_iff_ne_zero.mp hi)]

/-- C5 (alignment containment), evaluated on the code: for the in-range request
`first = 2, last = 5` with interval 4 on an axis of extent 10 the conditional of
`round_indices` yields 0 for the non-zero `last`, so the returned range is `(0, 0)` and its
upper end lies below `last`. -/
theorem round_indices_containment_broken :
    round_indices 2 5 4 10 = Except.ok (0, 0) ∧ ¬ ((0 : Nat) ≥ 5) :=
  ⟨rfl, by decide⟩

/-- C6 (alignment idempotence), evaluated on the code modulo `2 ^ 64`: the request
`first = 2, last = 5` with interval 3 on an axis of extent 10 is rounded to `(0, 0)`, and
rounding `(0, 0)` again gives `(0, 2)`, so the second application changes the result. -/
theorem round_indices_not_idempotent :
    round_indices 2 5 3 10 = Except.ok (0, 0) ∧
      round_indices 0 0 3 10 = Except.ok (0, 2) ∧
      round_indices 0 0 3 10 ≠ round_indices 2 5 3 10 :=
  ⟨rfl, rfl, by decide⟩

/-- C7 (upper bound formula), evaluated on the code: for `last = 7`, interval 3 and extent 20
the second component is 0 although `min(extent, ceil(last / interval) * interval)` is 9; and
for `last = 0`, interval 3 and extent 10 the second component is 2, not 0. -/
theorem round_indices_upper_bound_broken :
    round_indices 0 7 3 20 = Except.ok (0, 0) ∧
      min 20 ((7 + 3 - 1) / 3 * 3) = 9 ∧
      round_indices 0 0 3 10 = Except.ok (0, 2) :=
  ⟨rfl, rfl, rfl⟩

/-- C8 (lower bound formula): for a positive interval the first component returned by
`round_indices` is `floor(first / interval) * interval`; it is a multiple of the interval,
does not exceed `first`, lies less than one interval below `first`, and is the greatest
multiple of the interval with these properties. -/
theorem round_indices_lower_bound (first last interval max : Nat) (hi : 0 < interval)
    (hf : first < SIZE_MOD) :
    ∃ p, round_indices first last interval max = Except.ok p ∧
      p.1 = first / interval * interval ∧
      interval ∣ p.1 ∧
      p.1 ≤ first ∧
      first - p.1 < interval ∧
      ∀ k, interval ∣ k → k ≤ first → k ≤ p.1 := by
  refine ⟨_, round_indices_of_pos hi, size_mul_div_self hf, ?_, ?_, ?_, ?_⟩
  · show interval ∣ size_mul (first / interval) interval
    rw [size_mul_div_self hf]
    exact Nat.dvd_mul_left interval (first / interval)
  · show size_mul (first / interval) interval ≤ first
    rw [size_mul_div_self hf]
    exact Nat.div_mul_le_self first interval
  · show first - size_mul (first / interval) interval < interval
    rw [size_mul_div_self hf]
    have h1 := Nat.div_add_mod first interval
    have h2 := Nat.mod_lt first hi
    rw [Nat.mul_comm] at h1
    omega
  · intro k hk hle
    show k ≤ size_mul (first / interval) interval
    rw [size_mul_div_self hf]
    obtain ⟨j, rfl⟩ := hk
    rw [Nat.mul_comm interval j] at hle ⊢
    exact Nat.mul_le_mul_right interval ((Nat.le_div_iff_mul_le hi).mpr hle)

/-- Witness for C8: `first = 7`, interval 4. -/
theorem round_indices_lower_bound_witness :
    ∃ p, round_indices 7 9 4 10 = Except.ok p ∧
      p.1 = 7 / 4 * 4 ∧
      4 ∣ p.1 ∧
      p.1 ≤ 7 ∧
      7 - p.1 < 4 ∧
      ∀ k, 4 ∣ k → k ≤ 7 → k ≤ p.1 :=
  round_indices_lower_bound 7 9 4 10 (by decide) (by decide)

/-- C9 (zero interval), evaluated on the code: `round_indices` has no zero-interval case and
divides by the interval, for every `first`, `last` and extent; the constructor accepts chunk
dimensions and block spacings equal to zero, and a row request on a matrix so constructed
runs into that division. -/
theorem round_indices_zero_interval_divides :
    (∀ first last extent : Nat,
      round_indices first last 0 extent = Except.error Failure.division_by_zero) ∧
    ∃ m, UnknownMatrix.create example_seed int_coercion (example_probe (some [0, 0]) 0 0)
        = Except.ok m ∧
      m.block_nrow = 0 ∧ m.block_ncol = 0 ∧ m.chunk_nrow = 0 ∧ m.chunk_ncol = 0 ∧
      (m.row 0 0 5 (some (new_workspace Int true))).result
        = Except.error Failure.division_by_zero :=
  ⟨fun _ _ _ => rfl, _, rfl, rfl, rfl, rfl, rfl, rfl⟩

/-- C10 (whole-axis request), evaluated on the code: the whole-axis request on an axis of
extent 5 with interval 4 is returned as `(0, 0)`, not as `(0, 5)`. -/
theorem round_indices_whole_axis_broken :
    round_indices 0 5 4 5 = Except.ok (0, 0) ∧
      round_indices 0 5 4 5 ≠ Except.ok (0, 5) :=
  ⟨rfl, by decide⟩

/-! ## Selectors and the backend -/

theorem size_sub_of_le {a b : Nat} (hba : b ≤ a) (ha : a < SIZE_MOD) : size_sub a b = a - b := by
  unfold size_sub
  rw [Nat.mod_eq_of_lt ha, Nat.mod_eq_of_lt (lt_of_le_of_lt hba ha)]
  have h : a + SIZE_MOD - b = (a - b) + SIZE_MOD := by omega
  rw [h, Nat.add_mod_right]
  exact Nat.mod_eq_of_lt (by omega)

theorem round_indices_failure {first last interval max : Nat} {e : Failure}
    (h : round_indices first last interval max = Except.error e) :
    e = Failure.division_by_zero := by
  unfold round_indices at h
  split at h
  · exact (Except.error.inj h).symm
  · cases h

theorem dense_extractor_failure {Elt : Type} {seed : Seed Elt} {indices : RObject × RObject}
    {e : Failure} (h : dense_extractor seed indices = Except.error e) :
    e = Failure.subscript_out_of_bounds := by
  have hsel : ∀ (index : RObject) (extent : Nat) (e : Failure),
      selected index extent = Except.error e → e = Failure.subscript_out_of_bounds := by
    intro index extent e he
    unfold selected at he
    split at he
    · cases he
    · split at he
      · cases he
      · exact (Except.error.inj he).symm
  unfold dense_extractor at h
  split at h
  · rename_i e1 h1
    rw [← Except.error.inj h]
    exact hsel _ _ _ h1
  · split at h
    · rename_i e2 h2
      rw [← Except.error.inj h]
      exact hsel _ _ _ h2
    · cases h

theorem create_index_vector_failure {first last max : Nat} {e : Failure}
    (h : create_index_vector first last max = Except.error e) :
    e = Failure.negative_length := by
  unfold create_index_vector at h
  split at h
  · split at h
    · exact (Except.error.inj h).symm
    · cases h
  · cases h

theorem fetch_failure {Elt Dbl Data : Type} (m : UnknownMatrix Elt Dbl Data)
    (work : UnknownWorkspace Dbl) (indices : RObject × RObject) {e : Failure}
    (h : (m.fetch work indices).2.2 = some e) : e = Failure.subscript_out_of_bounds := by
  unfold UnknownMatrix.fetch at h
  split at h
  · rename_i e1 h1
    rw [← Option.some.inj h]
    exact dense_extractor_failure h1
  · cases h

theorem refresh_failure {Elt Dbl Data : Type} (m : UnknownMatrix Elt Dbl Data) (byrow : Bool)
    (i first last : Nat) (work : UnknownWorkspace Dbl) {e : Failure}
    (h : (m.refresh byrow i first last work).2.2 = some e) :
    e = Failure.division_by_zero ∨ e = Failure.negative_length ∨
      e = Failure.subscript_out_of_bounds := by
  unfold UnknownMatrix.refresh at h
  split at h
  · split at h
    · rename_i e1 h1
      rw [← Option.some.inj h]
      exact Or.inl (round_indices_failure h1)
    · split at h
      · rename_i e1 h1
        rw [← Option.some.inj h]
        exact Or.inr (Or.inl (create_index_vector_failure h1))
      · split at h
        · rename_i e2 h2
          rw [← Option.some.inj h]
          split at h2
          · exact Or.inl (round_indices_failure h2)
          · cases h2
        · split at h
          · rename_i e2 h2
            rw [← Option.some.inj h]
            exact Or.inr (Or.inl (create_index_vector_failure h2))
          · exact Or.inr (Or.inr (fetch_failure m _ _ h))
  · split at h
    · rename_i e1 h1
      rw [← Option.some.inj h]
      split at h1
      · exact Or.inl (round_indices_failure h1)
      · cases h1
    · split at h
      · rename_i e1 h1
        rw [← Option.some.inj h]
        exact Or.inr (Or.inl (create_index_vector_failure h1))
      · split at h
        · rename_i e2 h2
          rw [← Option.some.inj h]
          exact Or.inl (round_indices_failure h2)
        · split at h
          · rename_i e2 h2
            rw [← Option.some.inj h]
            exact Or.inr (Or.inl (create_index_vector_failure h2))
          · exact Or.inr (Or.inr (fetch_failure m _ _ h))

theorem copy_out_failure {Elt Dbl Data : Type} (m : UnknownMatrix Elt Dbl Data) (byrow : Bool)
    (i first last : Nat) (work : UnknownWorkspace Dbl) {e : Failure}
    (h : m.copy_out byrow i first last work = Except.error e) : e = Failure.invalid_read := by
  unfold UnknownMatrix.copy_out at h
  split at h
  · exact (Except.error.inj h).symm
  · split at h
    · unfold DenseColumnMatrix.row_copy at h
      split at h
      · cases h
      · exact (Except.error.inj h).symm
    · unfold DenseColumnMatrix.column_copy at h
      split at h
      · exact (Except.error.inj h).symm
      · split at h
        · cases h
        · exact (Except.error.inj h).symm

/-- C3 (direction guard): `buffered_dense_extractor` ends with the direction-mismatch error,
and so writes no data, exactly when the direction of the workspace differs from the direction
of the request; when the two agree no direction-mismatch error is raised. -/
theorem direction_guard {Elt Dbl Data : Type} (m : UnknownMatrix Elt Dbl Data) (byrow : Bool)
    (i first last : Nat) (work : UnknownWorkspace Dbl) :
    (m.buffered_dense_extractor byrow i first last work).result
        = Except.error Failure.direction_mismatch ↔
      work.byrow ≠ byrow := by
  unfold UnknownMatrix.buffered_dense_extractor
  constructor
  · intro h
    by_contra hne
    rw [if_neg (fun hk => hk hne)] at h
    split at h
    · split at h
      · rename_i w c e hr
        have he : e = Failure.direction_mismatch := Except.error.inj h
        have hk := refresh_failure m byrow i first last work (e := e) (by rw [hr])
        subst he
        rcases hk with hk | hk | hk <;> cases hk
      · have hk := copy_out_failure m byrow i first last _ h
        cases hk
    · have hk := copy_out_failure m byrow i first last _ h
      cases hk
  · intro hne
    rw [if_pos hne]

/-- C1 (cache correctness), evaluated on the code: on the 10 x 5 example array with no native
chunking and row-block spacing 4, the first request `(i, first, last) = (0, 0, 5)` of a fresh
row session makes `buffered_dense_extractor` call the backend for an empty row selector, keep
the empty primary range `[0, 0)`, and write no value, while `quick_dense_extractor` writes the
five entries of row 0 for the identical request. -/
theorem buffered_differs_from_quick :
    ∃ m, UnknownMatrix.create example_seed int_coercion (example_probe none 4 2)
        = Except.ok m ∧
      (m.buffered_dense_extractor true 0 0 5 (new_workspace Int true)).calls
        = [(RObject.IntegerVector [], RObject.R_NilValue)] ∧
      (m.buffered_dense_extractor true 0 0 5 (new_workspace Int true)).work.primary_block_end
        = 0 ∧
      (m.buffered_dense_extractor true 0 0 5 (new_workspace Int true)).result
        = Except.ok [] ∧
      (m.quick_dense_extractor true 0 0 5).result = Except.ok [0, 1, 2, 3, 4] :=
  ⟨_, rfl, rfl, rfl, rfl, rfl⟩

/-! ## Range checks -/

/-- C13 (selector construction): for `first ≤ last ≤ max`, `create_index_vector` returns the
"all" selector `R_NilValue` exactly when `first = 0` and `last = max`; otherwise it returns an
explicit list of exactly `last - first` entries whose `k`-th entry (0-based) is the 1-based
position `first + k + 1`. -/
theorem create_index_vector_selector (first last max : Nat) (hfl : first ≤ last)
    (hl : last ≤ max) (hm : max < SIZE_MOD) :
    (create_index_vector first last max = Except.ok RObject.R_NilValue ↔
        first = 0 ∧ last = max) ∧
      create_index_vector first last max =
        Except.ok (if first = 0 ∧ last = max then RObject.R_NilValue
          else RObject.IntegerVector (List.range' (first + 1) (last - first))) ∧
      (List.range' (first + 1) (last - first)).length = last - first ∧
      ∀ k, k < last - first →
        (List.range' (first + 1) (last - first))[k]? = some (first + k + 1) := by
  have hsub : size_sub last first = last - first :=
    size_sub_of_le hfl (lt_of_le_of_lt hl hm)
  have hform : create_index_vector first last max =
      Except.ok (if first = 0 ∧ last = max then RObject.R_NilValue
        else RObject.IntegerVector (List.range' (first + 1) (last - first))) := by
    unfold create_index_vector
    by_cases h : first = 0 ∧ last = max
    · rw [if_pos h, if_neg (by rcases h with ⟨h0, h1⟩; simp [h0, h1])]
    · rw [if_neg h, if_pos (by by_contra hn; push_neg at hn; exact h hn),
        if_neg (Nat.not_lt.mpr hfl), hsub]
  refine ⟨?_, hform, List.length_range' _ _ _, ?_⟩
  · rw [hform]
    by_cases h : first = 0 ∧ last = max
    · simp [h]
    · simp [h]
  · intro k hk
    rw [List.getElem?_range' _ _ hk]
    simp
    omega

/-- Witness for C13: the full-axis request `first = 0, last = 5` on an axis of extent 5 gets
the "all" selector, and the quick-path row request `(0, 0, 5)` on the 10 x 5 example matrix
calls the backend with `R_NilValue` as its column selector. -/
theorem create_index_vector_selector_witness :
    create_index_vector 0 5 5 = Except.ok RObject.R_NilValue ∧
      ((example_matrix 4 2).row 0 0 5 none).calls
        = [(RObject.IntegerVector [1], RObject.R_NilValue)] :=
  ⟨(create_index_vector_selector 0 5 5 (by decide) (by decide) (by decide)).1.mpr ⟨rfl, rfl⟩,
    rfl⟩

/-! ## Validation of the block spacings -/

/-- C14 (block-spacing validation), evaluated on the code: the constructor accepts a
`colAutoGrid` spacing vector whose first entry is negative and a `rowAutoGrid` spacing vector
whose second entry is negative; only `spacing[1]` of the former and `spacing[0]` of the
latter are compared with zero. -/
theorem negative_spacing_accepted :
    ∃ m, UnknownMatrix.create example_seed int_coercion
        { dim := some [10, 5]
          type_str := ["integer"]
          is_sparse := [0]
          chunkdim := none
          colAutoGrid := [-3, 2]
          rowAutoGrid := [4, -7] }
        = Except.ok m ∧
      m.block_nrow = 4 ∧ m.block_ncol = 2 :=
  ⟨_, rfl, rfl, rfl⟩

/-! ## Hits and the frame of the workspace -/

theorem needs_reset_eq_false_iff {Dbl : Type} (work : UnknownWorkspace Dbl)
    (i first last : Nat) :
    UnknownMatrix.needs_reset work i first last = false ↔ cache_hit work i first last := by
  unfold UnknownMatrix.needs_reset cache_hit
  cases hb : work.buffer with
  | none => simp
  | some mat =>
    by_cases h1 : i ≥ work.primary_block_start ∧ i < work.primary_block_end
    · by_cases h2 : first ≥ work.secondary_chunk_start ∧ last ≤ work.secondary_chunk_end
      · simp only [if_pos h1, if_pos h2, Option.isSome_some, true_and, true_iff]
        exact ⟨h1.1, h1.2, h2.1, h2.2⟩
      · simp only [if_pos h1, if_neg h2, Option.isSome_some, true_and]
        constructor
        · intro h
          cases h
        · intro h
          exact absurd ⟨h.2.2.1, h.2.2.2⟩ h2
    · simp only [if_neg h1, Option.isSome_some, true_and]
      constructor
      · intro h
        cases h
      · intro h
        exact absurd ⟨h.1, h.2.1⟩ h1

theorem buffered_of_hit {Elt Dbl Data : Type} (m : UnknownMatrix Elt Dbl Data) (byrow : Bool)
    (i first last : Nat) (work : UnknownWorkspace Dbl) (hdir : work.byrow = byrow)
    (hhit : cache_hit work i first last) :
    m.buffered_dense_extractor byrow i first last work =
      { work := work, calls := [], result := m.copy_out byrow i first last work } := by
  unfold UnknownMatrix.buffered_dense_extractor
  rw [if_neg (fun hk => hk hdir), (needs_reset_eq_false_iff work i first last).mpr hhit]
  rfl

/-- C19 (hit frame): whenever a request of the session's direction is a cache hit,
`buffered_dense_extractor` leaves the session entirely unchanged (`byrow`, the two primary
bounds, the two secondary bounds and the snapshot keep their values) and issues no backend
call. -/
theorem hit_frame {Elt Dbl Data : Type} (m : UnknownMatrix Elt Dbl Data) (byrow : Bool)
    (i first last : Nat) (work : UnknownWorkspace Dbl) (hdir : work.byrow = byrow)
    (hhit : cache_hit work i first last) :
    (m.buffered_dense_extractor byrow i first last work).work = work ∧
      (m.buffered_dense_extractor byrow i first last work).work.byrow = work.byrow ∧
      (m.buffered_dense_extractor byrow i first last work).work.primary_block_start
        = work.primary_block_start ∧
      (m.buffered_dense_extractor byrow i first last work).work.primary_block_end
        = work.primary_block_end ∧
      (m.buffered_dense_extractor byrow i first last work).work.secondary_chunk_start
        = work.secondary_chunk_start ∧
      (m.buffered_dense_extractor byrow i first last work).work.secondary_chunk_end
        = work.secondary_chunk_end ∧
      (m.buffered_dense_extractor byrow i first last work).work.buffer = work.buffer ∧
      (m.buffered_dense_extractor byrow i first last work).calls = [] := by
  rw [buffered_of_hit m byrow i first last work hdir hhit]
  exact ⟨rfl, rfl, rfl, rfl, rfl, rfl, rfl, rfl⟩

/-- Witness for C19: the request `(1, 0, 5)` on the example workspace holding rows `[0, 4)`
and columns `[0, 5)`. -/
theorem hit_frame_witness :
    cache_hit example_workspace 1 0 5 ∧
      ((example_matrix 4 2).buffered_dense_extractor true 1 0 5 example_workspace).work
        = example_workspace :=
  have hhit : cache_hit example_workspace 1 0 5 :=
    ⟨rfl, by decide, by decide, by decide, by decide⟩
  ⟨hhit, (hit_frame (example_matrix 4 2) true 1 0 5 example_workspace rfl hhit).1⟩

/-- C20 (direction-error atomicity): when the direction of the session differs from the
direction of the request, `buffered_dense_extractor` fails with the direction mismatch, has
issued no backend call and leaves the session exactly as it was, so that every later request
on the session behaves as it would have without the failed call. -/
theorem direction_error_atomic {Elt Dbl Data : Type} (m : UnknownMatrix Elt Dbl Data)
    (byrow : Bool) (i first last : Nat) (work : UnknownWorkspace Dbl)
    (hne : work.byrow ≠ byrow) :
    (m.buffered_dense_extractor byrow i first last work).result
        = Except.error Failure.direction_mismatch ∧
      (m.buffered_dense_extractor byrow i first last work).calls = [] ∧
      (m.buffered_dense_extractor byrow i first last work).work = work ∧
      ∀ (later : Bool) (j f l : Nat),
        m.buffered_dense_extractor later j f l
            (m.buffered_dense_extractor byrow i first last work).work
          = m.buffered_dense_extractor later j f l work := by
  have h : m.buffered_dense_extractor byrow i first last work =
      { work := work, calls := [], result := Except.error Failure.direction_mismatch } := by
    unfold UnknownMatrix.buffered_dense_extractor
    rw [if_pos hne]
  rw [h]
  exact ⟨rfl, rfl, rfl, fun _ _ _ _ => rfl⟩

/-- Witness for C20: a column request on a fresh row session of the example matrix, followed
by the row request `(0, 0, 5)`. -/
theorem direction_error_atomic_witness :
    (new_workspace Int true).byrow ≠ false ∧
      ((example_matrix 4 2).buffered_dense_extractor false 0 0 10
          (new_workspace Int true)).result = Except.error Failure.direction_mismatch ∧
      (example_matrix 4 2).buffered_dense_extractor true 0 0 5
          ((example_matrix 4 2).buffered_dense_extractor false 0 0 10
            (new_workspace Int true)).work
        = (example_matrix 4 2).buffered_dense_extractor true 0 0 5 (new_workspace Int true) :=
  have hne : (new_workspace Int true).byrow ≠ false := fun h => nomatch h
  have h := direction_error_atomic (example_matrix 4 2) false 0 0 10 (new_workspace Int true) hne
  ⟨hne, h.1, h.2.2.2 true 0 0 5⟩

/-! ## Boolean and integer data -/

theorem dense_extractor_values {Elt : Type} {seed : Seed Elt} {indices : RObject × RObject}
    {val0 : Block Elt} (h : dense_extractor seed indices = Except.ok val0) :
    ∀ v ∈ val0.values, ∃ r c, v = seed.entry r c := by
  unfold dense_extractor at h
  split at h
  · cases h
  · split at h
    · cases h
    · cases h
      intro v hv
      simp only [List.mem_flatten, List.mem_map] at hv
      obtain ⟨l, ⟨c, _, rfl⟩, hvl⟩ := hv
      simp only [List.mem_map] at hvl
      obtain ⟨r, _, rfl⟩ := hvl
      exact ⟨r, c, rfl⟩

theorem copy_values_boolean {Elt Dbl Data : Type} (m : UnknownMatrix Elt Dbl Data)
    (val0 : Block Elt)
    (hcode : ∀ v ∈ val0.values, m.conv.as_logical v = m.conv.as_integer v) :
    UnknownMatrix.copy_values { m with type_ := 0 } val0
      = UnknownMatrix.copy_values { m with type_ := 1 } val0 := by
  simp only [UnknownMatrix.copy_values, if_true, one_ne_zero, if_false]
  apply List.map_congr_left
  intro v hv
  rw [hcode v hv]

theorem snapshot_boolean {Elt Dbl Data : Type} (m : UnknownMatrix Elt Dbl Data)
    (val0 : Block Elt)
    (hcode : ∀ v ∈ val0.values, m.conv.as_logical v = m.conv.as_integer v) :
    UnknownMatrix.snapshot { m with type_ := 0 } val0
      = UnknownMatrix.snapshot { m with type_ := 1 } val0 := by
  simp only [UnknownMatrix.snapshot, if_true, one_ne_zero, if_false]
  rw [List.map_congr_left hcode]

theorem fetch_boolean {Elt Dbl Data : Type} (m : UnknownMatrix Elt Dbl Data)
    (hcode : ∀ r c, m.conv.as_logical (m.original_seed.entry r c)
      = m.conv.as_integer (m.original_seed.entry r c))
    (work : UnknownWorkspace Dbl) (indices : RObject × RObject) :
    UnknownMatrix.fetch { m with type_ := 0 } work indices
      = UnknownMatrix.fetch { m with type_ := 1 } work indices := by
  unfold UnknownMatrix.fetch
  dsimp only
  cases h : dense_extractor m.original_seed indices with
  | error e => rfl
  | ok val0 =>
    dsimp only
    rw [snapshot_boolean m val0]
    intro v hv
    obtain ⟨r, c, rfl⟩ := dense_extractor_values h v hv
    exact hcode r c


theorem as_logical_of_logical {v : Int} (hv : v = 0 ∨ v = 1 ∨ v = NA_INTEGER) :
    int_coercion.as_logical v = int_coercion.as_integer v := by
  rcases hv with h | h | h
  · subst h
    rfl
  · subst h
    rfl
  · subst h
    rfl

/-- C17 (boolean coercion), refuted on the code: for the block `21, 22, 23` of integer
storage (row 2, columns 1 to 3, of the example array) the boolean type tag views the block
through `LogicalVector`, so the quick path writes `1, 1, 1` and the snapshot stores
`1, 1, 1`, whereas the integer type tag gives `21, 22, 23` in both places. -/
theorem boolean_tag_differs :
    (UnknownMatrix.quick_dense_extractor { example_matrix 4 2 with type_ := 0 }
        true 2 1 4).result = Except.ok [1, 1, 1] ∧
      (UnknownMatrix.quick_dense_extractor { example_matrix 4 2 with type_ := 1 }
        true 2 1 4).result = Except.ok [21, 22, 23] ∧
      (UnknownMatrix.quick_dense_extractor { example_matrix 4 2 with type_ := 0 }
          true 2 1 4).result
        ≠ (UnknownMatrix.quick_dense_extractor { example_matrix 4 2 with type_ := 1 }
          true 2 1 4).result ∧
      (UnknownMatrix.snapshot { example_matrix 4 2 with type_ := 0 }
          { rows := 1, cols := 3, values := [21, 22, 23] }).values.read_all int_coercion
          [0, 1, 2]
        = some [1, 1, 1] ∧
      (UnknownMatrix.snapshot { example_matrix 4 2 with type_ := 1 }
          { rows := 1, cols := 3, values := [21, 22, 23] }).values.read_all int_coercion
          [0, 1, 2]
        = some [21, 22, 23] :=
  ⟨rfl, rfl, by decide, rfl, rfl⟩

/-- C17 as amended: for a backend whose values are logical (0, 1 or the missing value), the
matrix with the boolean type tag and the matrix with the integer type tag put the same values
into the output buffer on the quick path and the same snapshot into the session on the
buffered path, for every block the backend returns and every request. (The views are those
of Rcpp on integer storage: the boolean tag turns any other non-zero value into 1.) -/
theorem boolean_coercion (m : UnknownMatrix Int Int Int) (hconv : m.conv = int_coercion)
    (hlogical : ∀ r c, m.original_seed.entry r c = 0 ∨ m.original_seed.entry r c = 1 ∨
      m.original_seed.entry r c = NA_INTEGER) :
    (∀ indices val0, dense_extractor m.original_seed indices = Except.ok val0 →
        UnknownMatrix.copy_values { m with type_ := 0 } val0
          = UnknownMatrix.copy_values { m with type_ := 1 } val0 ∧
        UnknownMatrix.snapshot { m with type_ := 0 } val0
          = UnknownMatrix.snapshot { m with type_ := 1 } val0) ∧
      (∀ (byrow : Bool) (i first last : Nat),
        UnknownMatrix.quick_dense_extractor { m with type_ := 0 } byrow i first last
          = UnknownMatrix.quick_dense_extractor { m with type_ := 1 } byrow i first last) ∧
      (∀ (byrow : Bool) (i first last : Nat) (work : UnknownWorkspace Int),
        UnknownMatrix.buffered_dense_extractor { m with type_ := 0 } byrow i first last work
          = UnknownMatrix.buffered_dense_extractor { m with type_ := 1 } byrow i first last
            work) := by
  have hcode : ∀ r c, m.conv.as_logical (m.original_seed.entry r c)
      = m.conv.as_integer (m.original_seed.entry r c) := by
    intro r c
    rw [hconv]
    exact as_logical_of_logical (hlogical r c)
  have hblock : ∀ indices val0, dense_extractor m.original_seed indices = Except.ok val0 →
      ∀ v ∈ val0.values, m.conv.as_logical v = m.conv.as_integer v := by
    intro indices val0 h v hv
    obtain ⟨r, c, rfl⟩ := dense_extractor_values h v hv
    exact hcode r c
  refine ⟨?_, ?_, ?_⟩
  · intro indices val0 h
    exact ⟨copy_values_boolean m val0 (hblock indices val0 h),
      snapshot_boolean m val0 (hblock indices val0 h)⟩
  · intro byrow i first last
    unfold UnknownMatrix.quick_dense_extractor
    dsimp only
    split
    · rfl
    · split
      · rfl
      · rename_i val0 h
        rw [copy_values_boolean m val0 (hblock _ val0 h)]
  · intro byrow i first last work
    have hrefresh : UnknownMatrix.refresh { m with type_ := 0 } byrow i first last work
        = UnknownMatrix.refresh { m with type_ := 1 } byrow i first last work := by
      unfold UnknownMatrix.refresh
      dsimp only
      simp only [fetch_boolean m hcode]
    unfold UnknownMatrix.buffered_dense_extractor
    rw [hrefresh]
    rfl

/-- Witness for the amended C17: the 10 x 5 array of logical values, row request
`(2, 1, 4)` without a workspace and row request `(0, 0, 5)` on a fresh row session. -/
theorem boolean_coercion_witness :
    (UnknownMatrix.quick_dense_extractor { logical_matrix 4 2 with type_ := 0 }
        true 2 1 4).result = Except.ok [1, 0, 1] ∧
      UnknownMatrix.quick_dense_extractor { logical_matrix 4 2 with type_ := 0 } true 2 1 4
        = UnknownMatrix.quick_dense_extractor { logical_matrix 4 2 with type_ := 1 } true 2 1 4 ∧
      UnknownMatrix.buffered_dense_extractor { logical_matrix 4 2 with type_ := 0 } true 0 0 5
          (new_workspace Int true)
        = UnknownMatrix.buffered_dense_extractor { logical_matrix 4 2 with type_ := 1 } true 0 0 5
          (new_workspace Int true) :=
  have hlogical : ∀ r c, (logical_matrix 4 2).original_seed.entry r c = 0 ∨
      (logical_matrix 4 2).original_seed.entry r c = 1 ∨
      (logical_matrix 4 2).original_seed.entry r c = NA_INTEGER := by
    intro r c
    show (((r + c) % 2 : Nat) : Int) = 0 ∨ (((r + c) % 2 : Nat) : Int) = 1 ∨ _
    rcases Nat.mod_two_eq_zero_or_one (r + c) with h | h
    · exact Or.inl (by rw [h]; rfl)
    · exact Or.inr (Or.inl (by rw [h]; rfl))
  have h := boolean_coercion (logical_matrix 4 2) rfl hlogical
  ⟨rfl, h.2.1 true 2 1 4, h.2.2 true 0 0 5 (new_workspace Int true)⟩

/-! ## Block reuse, copy-out and the recorded window on the example matrix -/

theorem copy_out_arguments {Elt Dbl Data : Type} (m : UnknownMatrix Elt Dbl Data)
    (byrow : Bool) (i first last : Nat) (work : UnknownWorkspace Dbl)
    (mat : DenseColumnMatrix Dbl) (hb : work.buffer = some mat) :
    m.copy_out byrow i first last work =
      if byrow then
        mat.row_copy m.conv (copy_arguments work i first last).1
          (copy_arguments work i first last).2.1 (copy_arguments work i first last).2.2
      else
        mat.column_copy m.conv (copy_arguments work i first last).1
          (copy_arguments work i first last).2.1 (copy_arguments work i first last).2.2 := by
  unfold UnknownMatrix.copy_out copy_arguments
  rw [hb]

/-- C11 (hit test), evaluated on the code: on the 10 x 5 example array with no native chunking
and row-block spacing 4, after the row request `(0, 0, 5)` of a fresh row session, the
in-range row request `(6, 0, 5)` is not a hit, yet no backend call is issued and the
snapshot is not replaced: the row range is rounded to `(4, 0)` and `create_index_vector`
throws on its wrapped length before the backend is reached. -/
theorem hit_test_broken :
    ∃ m, UnknownMatrix.create example_seed int_coercion (example_probe none 4 2)
        = Except.ok m ∧
      ¬ cache_hit (m.buffered_dense_extractor true 0 0 5 (new_workspace Int true)).work
        6 0 5 ∧
      round_indices 6 7 4 10 = Except.ok (4, 0) ∧
      create_index_vector 4 0 10 = Except.error Failure.negative_length ∧
      (m.buffered_dense_extractor true 6 0 5
          (m.buffered_dense_extractor true 0 0 5 (new_workspace Int true)).work).calls
        = [] ∧
      (m.buffered_dense_extractor true 6 0 5
          (m.buffered_dense_extractor true 0 0 5 (new_workspace Int true)).work).work
        = (m.buffered_dense_extractor true 0 0 5 (new_workspace Int true)).work ∧
      (m.buffered_dense_extractor true 6 0 5
          (m.buffered_dense_extractor true 0 0 5 (new_workspace Int true)).work).result
        = Except.error Failure.negative_length :=
  ⟨_, rfl, fun h => absurd (show 6 < 0 from h.2.2.1) (by decide), rfl, rfl, rfl, rfl, rfl⟩

/-- C12 (block reuse), evaluated on the code: on the 10 x 5 example array with no native
chunking and row-block spacing 4, in a fresh row session, `read_row(0, 0, 5)` calls the
backend for an empty row selector (not for rows `[0, 4)`, whose selector would be
`1, 2, 3, 4`); the following `read_row(3, 0, 5)` issues a backend call again; and for
`read_row(4, 0, 5)` the rounded row range is `(4, 0)`, not `(4, 8)`, so that
`create_index_vector` throws and no backend call is made. -/
theorem block_reuse_broken :
    ∃ m, UnknownMatrix.create example_seed int_coercion (example_probe none 4 2)
        = Except.ok m ∧
      create_index_vector 0 4 10 = Except.ok (RObject.IntegerVector [1, 2, 3, 4]) ∧
      (m.buffered_dense_extractor true 0 0 5 (new_workspace Int true)).calls
        = [(RObject.IntegerVector [], RObject.R_NilValue)] ∧
      (m.buffered_dense_extractor true 3 0 5
          (m.buffered_dense_extractor true 0 0 5 (new_workspace Int true)).work).calls
        = [(RObject.IntegerVector [], RObject.R_NilValue)] ∧
      round_indices 4 5 4 10 = Except.ok (4, 0) ∧
      (m.buffered_dense_extractor true 4 0 5
          (m.buffered_dense_extractor true 3 0 5
            (m.buffered_dense_extractor true 0 0 5 (new_workspace Int true)).work).work).calls
        = [] ∧
      (m.buffered_dense_extractor true 4 0 5
          (m.buffered_dense_extractor true 3 0 5
            (m.buffered_dense_extractor true 0 0 5 (new_workspace Int true)).work).work).result
        = Except.error Failure.negative_length :=
  ⟨_, rfl, rfl, rfl, rfl, rfl, rfl, rfl⟩

/-- C15 (refresh window), evaluated on the code: on the 10 x 5 example array with no native
chunking and column-block spacing 2, after the column request `(0, 0, 10)` of a fresh column
session, the in-range column request `(3, 2, 7)` is a miss for which
`round_indices(3, 4, 2, 5)` is `(2, 0)`; `create_index_vector` throws on that range, so the
primary range of the session stays `(0, 0)` while its secondary range has already been set
to `(2, 7)`, and no backend call is issued. -/
theorem refresh_window_broken :
    ∃ m, UnknownMatrix.create example_seed int_coercion (example_probe none 4 2)
        = Except.ok m ∧
      ¬ cache_hit (m.buffered_dense_extractor false 0 0 10 (new_workspace Int false)).work
        3 2 7 ∧
      round_indices 3 4 2 5 = Except.ok (2, 0) ∧
      (m.buffered_dense_extractor false 3 2 7
          (m.buffered_dense_extractor false 0 0 10
            (new_workspace Int false)).work).work.primary_block_start = 0 ∧
      (m.buffered_dense_extractor false 3 2 7
          (m.buffered_dense_extractor false 0 0 10
            (new_workspace Int false)).work).work.primary_block_end = 0 ∧
      (m.buffered_dense_extractor false 3 2 7
          (m.buffered_dense_extractor false 0 0 10
            (new_workspace Int false)).work).work.secondary_chunk_start = 2 ∧
      (m.buffered_dense_extractor false 3 2 7
          (m.buffered_dense_extractor false 0 0 10
            (new_workspace Int false)).work).work.secondary_chunk_end = 7 ∧
      (m.buffered_dense_extractor false 3 2 7
          (m.buffered_dense_extractor false 0 0 10 (new_workspace Int false)).work).calls
        = [] ∧
      (m.buffered_dense_extractor false 3 2 7
          (m.buffered_dense_extractor false 0 0 10 (new_workspace Int false)).work).result
        = Except.error Failure.negative_length :=
  ⟨_, rfl, fun h => absurd (show 3 < 0 from h.2.2.1) (by decide), rfl, rfl, rfl, rfl, rfl,
    rfl, rfl⟩

/-- C16 (copy-out offsets), evaluated on the code: for the request `(1, 0, 5)` on a row
session holding rows `[0, 4)` and columns `[0, 5)` the offsets passed to `row_copy` are
`(1, 0, 0)`, the last one being `last - secondary_chunk_end`, so no value is copied, whereas
the offsets `(1, 0, 5)` of the claim read the five entries of row 1; and the first request
`(0, 0, 5)` of a fresh row session likewise ends with the offsets `(0, 0, 0)`. -/
theorem copy_out_end_offset_broken :
    copy_arguments example_workspace 1 0 5 = (1, 0, 0) ∧
      ((example_matrix 4 2).buffered_dense_extractor true 1 0 5 example_workspace).result
        = Except.ok [] ∧
      (∃ mat, example_workspace.buffer = some mat ∧
        mat.row_copy int_coercion 1 0 5 = Except.ok [10, 11, 12, 13, 14]) ∧
      ∃ m, UnknownMatrix.create example_seed int_coercion (example_probe none 4 2)
          = Except.ok m ∧
        copy_arguments
            (m.buffered_dense_extractor true 0 0 5 (new_workspace Int true)).work 0 0 5
          = (0, 0, 0) ∧
        (m.buffered_dense_extractor true 0 0 5 (new_workspace Int true)).result
          = Except.ok [] :=
  ⟨rfl, rfl, ⟨_, rfl, rfl⟩, _, rfl, rfl, rfl⟩

/-- C18 (no unsigned underflow), evaluated on the code, on the 10 x 5 example array with
row-block spacing 4 (and, for the last part, chunk dimensions 5 x 3): after the in-range row
request `(0, 0, 5)` the recorded primary range is `[0, 0)`, which does not contain `i = 0`;
for the in-range row request `(5, 0, 5)` the range passed to `create_index_vector` is
`(4, 0)`, whose length `0 - 4` wraps to `2 ^ 64 - 4`, so that the constructor of the selector
throws and the request fails with the workspace untouched and no backend call; and for the
in-range row request `(0, 0, 0)` on the chunked matrix the last offset, `last` minus
`secondary_chunk_end`, wraps to `2 ^ 64 - 2`. -/
theorem window_underflow :
    (∃ m, UnknownMatrix.create example_seed int_coercion (example_probe none 4 2)
          = Except.ok m ∧
        (m.buffered_dense_extractor true 0 0 5 (new_workspace Int true)).work.primary_block_start
          = 0 ∧
        (m.buffered_dense_extractor true 0 0 5 (new_workspace Int true)).work.primary_block_end
          = 0 ∧
        round_indices 5 6 4 10 = Except.ok (4, 0) ∧
        size_sub 0 4 = 2 ^ 64 - 4 ∧
        create_index_vector 4 0 10 = Except.error Failure.negative_length ∧
        (m.buffered_dense_extractor true 5 0 5 (new_workspace Int true)).work
          = new_workspace Int true ∧
        (m.buffered_dense_extractor true 5 0 5 (new_workspace Int true)).calls = [] ∧
        (m.buffered_dense_extractor true 5 0 5 (new_workspace Int true)).result
          = Except.error Failure.negative_length) ∧
      ∃ m, UnknownMatrix.create example_seed int_coercion (example_probe (some [5, 3]) 4 2)
          = Except.ok m ∧
        (m.buffered_dense_extractor true 0 0 0 (new_workspace Int true)).work.secondary_chunk_end
          = 2 ∧
        copy_arguments
            (m.buffered_dense_extractor true 0 0 0 (new_workspace Int true)).work 0 0 0
          = (0, 0, 2 ^ 64 - 2) ∧
        (m.buffered_dense_extractor true 0 0 0 (new_workspace Int true)).result
          = Except.error Failure.invalid_read :=
  ⟨⟨_, rfl, rfl, rfl, rfl, rfl, rfl, rfl, rfl, rfl⟩, _, rfl, rfl, rfl, rfl⟩

end raticate
